import Mathlib

/-!
Shallow embedding of the tunnel-backed streaming session layer of the
Swahili voice bot (`server/bot/services/modal_swahili_tts_service.py`,
`server/bot/services/modal_aya_service.py`, `server/stt/omnilingual_stt.py`,
`server/tts/swahili_csm_tts.py`, `server/llm/aya_vllm_server.py`,
`server/bot/swahili_bot.py`).

Opaque collaborators (the ML models, the websocket transport, the Modal
Dict) are modelled by their observable effects: each inbound message
carries the outcome of the opaque step that processes it, and each
function returns the ordered trace of its externally visible actions
(frames yielded, websocket sends, store writes, sleeps).
-/

namespace SwahiliBot

/-- JSON scalar values appearing in the wire protocol messages. -/
inductive JVal where
  | str (s : String)
  | num (n : Nat)
deriving DecidableEq, Repr

/-- A JSON object, as an ordered list of key/value fields (Python dicts
preserve insertion order, which `json.dumps` reproduces). -/
abbrev JObj := List (String × JVal)

/-! ## `server/bot/services/modal_swahili_tts_service.py` -/

/-- Pipecat frames handled or produced by `ModalSwahiliTTSService`.
`nullFrame` stands for the final `yield None` of `run_tts`. -/
inductive Frame where
  | ttsStarted
  | ttsStopped
  | interruption
  | ttsAudioRaw (data : List Nat) (sampleRate : Nat) (channels : Nat)
  | errorFrame (msg : String) (fatal : Bool)
  | nullFrame
  | otherFrame
deriving DecidableEq, Repr

/-- Mutable state of a `ModalSwahiliTTSService` instance:
the configuration fixed in `__init__` (`_speaker_id`, `_max_tokens`),
the `_running` flag, and whether `self._websocket` is set. -/
structure TTSServiceState where
  speaker_id : Nat
  max_tokens : Nat
  running : Bool
  connected : Bool
deriving DecidableEq, Repr

/-- `ModalSwahiliTTSService.__init__`: stores the configuration and
clears `_running` (defaults `speaker_id=22`, `max_tokens=250`).
Whether a websocket exists is managed by the parent service. -/
def ModalSwahiliTTSService_init (speaker_id : Nat := 22) (max_tokens : Nat := 250)
    (connected : Bool := false) : TTSServiceState :=
  { speaker_id := speaker_id, max_tokens := max_tokens,
    running := false, connected := connected }

/-- `ModalSwahiliTTSService.push_frame`: clears `_running` on
`TTSStoppedFrame` and `InterruptionFrame`, then forwards the frame to the
parent class (modelled as emitting it downstream). -/
def push_frame (s : TTSServiceState) (f : Frame) : TTSServiceState × List Frame :=
  let s1 := match f with
    | Frame.ttsStopped => { s with running := false }
    | Frame.interruption => { s with running := false }
    | _ => s
  (s1, [f])

/-- The JSON object `tts_msg` built by `run_tts`. -/
def tts_msg (prompt : String) (speaker_id max_tokens : Nat) : JObj :=
  [("type", JVal.str "prompt"),
   ("text", JVal.str prompt.trim),
   ("speaker_id", JVal.num speaker_id),
   ("max_tokens", JVal.num max_tokens)]

/-- Result of one `run_tts` call: the frames yielded to the caller, the
payloads passed to `self._websocket.send` (in order), and the state of
the service afterwards. -/
structure RunTTSResult where
  frames : List Frame
  sent : List JObj
  state : TTSServiceState
deriving DecidableEq, Repr

/-- `ModalSwahiliTTSService.run_tts`. If no websocket is connected it
yields a single fatal `ErrorFrame` and returns. Otherwise it yields
`TTSStartedFrame` and sets `_running` when `_running` was false, builds
`tts_msg` and sends it; `sendOk` is the outcome of the opaque
`websocket.send` call (`false` = it raised, caught by the `except`,
which yields a non-fatal `ErrorFrame`). The generator ends with
`yield None`. -/
def run_tts (s : TTSServiceState) (prompt : String) (sendOk : Bool) : RunTTSResult :=
  if !s.connected then
    { frames := [Frame.errorFrame "Not connected to Swahili CSM TTS." true],
      sent := [], state := s }
  else
    let startFrames := if !s.running then [Frame.ttsStarted] else []
    let s1 := { s with running := true }
    let msg := tts_msg prompt s.speaker_id s.max_tokens
    if sendOk then
      { frames := startFrames ++ [Frame.nullFrame], sent := [msg], state := s1 }
    else
      { frames := startFrames ++
          [Frame.errorFrame "Failed to send audio to Swahili CSM TTS." false,
           Frame.nullFrame],
        sent := [msg], state := s1 }

/-- `run_bot` in `server/bot/swahili_bot.py` constructs the TTS service
with `speaker_id=speaker_id` (its own parameter, default 22) and
`max_tokens=250`. -/
def run_bot_tts_service (speaker_id : Nat := 22) : TTSServiceState :=
  ModalSwahiliTTSService_init speaker_id 250

/-- One inbound websocket message of the TTS client receive loop
`ModalSwahiliTTSService._receive_messages`, together with the outcome of
the opaque per-message work (`stop_ttfb_metrics` / `push_frame`):
`audioBytes` = the body of the `try` completes, `failing e` = it raises
`e`, caught by the `except`. -/
inductive TTSClientMsg where
  | audioBytes (data : List Nat)
  | failing (e : String)
deriving DecidableEq, Repr

/-- `ModalSwahiliTTSService._receive_messages`: for each message of the
websocket, push a `TTSAudioRawFrame(message, self.sample_rate, 1)`; an
exception is logged, a non-fatal `ErrorFrame` is pushed via
`push_error`, and the `async for` continues with the next message. -/
def receive_messages (sample_rate : Nat) : List TTSClientMsg → List Frame
  | [] => []
  | TTSClientMsg.audioBytes d :: rest =>
      Frame.ttsAudioRaw d sample_rate 1 :: receive_messages sample_rate rest
  | TTSClientMsg.failing e :: rest =>
      Frame.errorFrame ("Error decoding audio: " ++ e) false
        :: receive_messages sample_rate rest

/-! ## `server/tts/swahili_csm_tts.py` -/

/-- The two little-endian bytes of one 16-bit PCM sample, as produced
by `.astype(np.int16).tobytes()` (two's complement, low byte first). -/
def int16ToBytesLE (sample : Int) : List Nat :=
  let u := (sample % 65536).toNat
  [u % 256, u / 256]

/-- `audio_bytes = (...).astype(np.int16).tobytes()`: the raw
little-endian 16-bit PCM byte stream of a list of samples — no header,
no framing. -/
def pcm16leBytes (samples : List Int) : List Nat :=
  samples.flatMap int16ToBytesLE

/-- A websocket send performed by `SwahiliTTS.synthesize_websocket`:
`websocket.send(bytes)` is a binary frame, `websocket.send(str)` is a
text frame. -/
inductive WSOut where
  | binary (data : List Nat)
  | text (s : String)
deriving DecidableEq, Repr

/-- `json.dumps({"error": str(e)})`, the error payload of
`synthesize_websocket`. -/
def jsonErrorText (e : String) : String :=
  "\x7b\"error\": \"" ++ e ++ "\"\x7d"

/-- One inbound message of `SwahiliTTS.synthesize_websocket`, carrying
the outcome of the opaque steps that process it:
* `prompt text speaker_id max_tokens gen` — `{"type": "prompt", ...}`,
  with `gen` the outcome of `self.model.generate` (the int16 audio
  samples after scaling, or the exception it raised);
* `otherType` — valid JSON with a `"type"` key that is not `"prompt"`
  (the `if` is skipped, nothing is sent);
* `malformed e` — `json.loads` or the `data["type"]` lookup raises `e`. -/
inductive TTSInMsg where
  | prompt (text : String) (speaker_id : Nat) (max_tokens : Nat)
      (gen : Except String (List Int))
  | otherType
  | malformed (e : String)
deriving Repr

/-- The body of the `async for` of `synthesize_websocket` for one
message: the frames sent on success (`.ok`, a single binary frame of
raw PCM bytes per prompt), or the exception raised (`.error`). -/
def process_tts_msg : TTSInMsg → Except String (List WSOut)
  | TTSInMsg.prompt _ _ _ (Except.ok samples) =>
      Except.ok [WSOut.binary (pcm16leBytes samples)]
  | TTSInMsg.prompt _ _ _ (Except.error e) => Except.error e
  | TTSInMsg.otherType => Except.ok []
  | TTSInMsg.malformed e => Except.error e

/-- The message loop of `SwahiliTTS.synthesize_websocket`. The
`try/except` encloses the whole `async for`: the first exception leaves
the loop, sends `json.dumps({"error": str(e)})` as a text frame, and the
remaining messages are never consumed. Returns the ordered trace of
`websocket.send` calls. -/
def synthesize_websocket : List TTSInMsg → List WSOut
  | [] => []
  | m :: rest =>
    match process_tts_msg m with
    | Except.ok outs => outs ++ synthesize_websocket rest
    | Except.error e => [WSOut.text (jsonErrorText e)]

/-! ## `server/stt/omnilingual_stt.py` -/

/-- One inbound text message of the STT server's `recv_loop`, carrying
the outcome of the opaque steps that process it:
* `setVad` — `{"type": "set_vad", ...}` (ignored, `continue`);
* `audio t` — `{"type": "audio", "audio": ...}` that decodes, with `t`
  the outcome of `self.pipeline.transcribe` (the list of transcription
  texts, or the exception it raised);
* `otherJson` — valid JSON whose `type` is neither (`.get` returns a
  non-matching value, nothing happens);
* `malformed e` — `json.loads`, the `"audio"` key lookup or the base64
  decode raises `e`. -/
inductive STTMsg where
  | setVad
  | audio (transcribe : Except String (List String))
  | otherJson
  | malformed (e : String)
deriving Repr

/-- The body of the `try` of `recv_loop` for one message: returns the
texts sent back over the websocket (`.ok`), or the exception raised
(`.error`). `text = transcriptions[0] if transcriptions else ""`; the
reply is sent only `if text:`. -/
def process_stt_msg : STTMsg → Except String (List String)
  | STTMsg.setVad => Except.ok []
  | STTMsg.otherJson => Except.ok []
  | STTMsg.malformed e => Except.error e
  | STTMsg.audio (Except.error e) => Except.error e
  | STTMsg.audio (Except.ok transcriptions) =>
      let text := transcriptions.headD ""
      Except.ok (if text = "" then [] else [text])

/-- `recv_loop`: processes every received message in turn; an exception
inside the `try` is printed and the loop `continue`s with the next
message. Returns the concatenated outbound text frames. -/
def recv_loop : List STTMsg → List String
  | [] => []
  | m :: rest =>
    match process_stt_msg m with
    | Except.ok outs => outs ++ recv_loop rest
    | Except.error _ => recv_loop rest

/-- Events observable on the Modal `Dict` shared between a worker's
`run_tunnel_client` and the bot-side tunnel manager, plus the worker's
keep-alive sleeps. -/
inductive DictEvent where
  | put (key value : String)
  | sleep
deriving DecidableEq, Repr

/-- `SwahiliTranscriber.run_tunnel_client`: one `d.put("url",
self.websocket_url)`, then `while True: await asyncio.sleep(1.0)`.
`iters` is the number of keep-alive iterations observed so far (the
loop itself never ends). -/
def SwahiliTranscriber_run_tunnel_client (websocket_url : String) (iters : Nat) :
    List DictEvent :=
  DictEvent.put "url" websocket_url :: List.replicate iters DictEvent.sleep

/-! ## `server/llm/aya_vllm_server.py` -/

/-- `AyaLLM.run_tunnel_client`: one `d.put("url", self.base_url)`, then
`while True: await asyncio.sleep(1.0)`. -/
def AyaLLM_run_tunnel_client (base_url : String) (iters : Nat) : List DictEvent :=
  DictEvent.put "url" base_url :: List.replicate iters DictEvent.sleep

/-- Outcome of one `requests.get(http://localhost:8000/health)` attempt
in `AyaLLM.start_server`: an HTTP status code, or the request raised
(swallowed by the bare `except: pass`). -/
inductive HealthResult where
  | status (code : Nat)
  | exc
deriving DecidableEq, Repr

/-- `max_retries = 60` in `AyaLLM.start_server`. -/
def max_retries : Nat := 60

/-- The readiness loop of `AyaLLM.start_server`, recursing over the
remaining indices of `range(max_retries)`. Attempt `i` breaks out with
success when the health check returns status 200 (`.ok` carries the
number of attempts made); otherwise it sleeps one second and, when
`i == max_retries - 1`, raises `"vLLM server failed to start"`. The
second component counts the `time.sleep(1)` calls. The `[]` case is
unreachable from `range(max_retries)` because index `max_retries - 1`
raises first. -/
def health_loop (results : Nat → HealthResult) :
    List Nat → Except String Nat × Nat
  | [] => (Except.error "vLLM server failed to start", 0)
  | i :: rest =>
    if results i = HealthResult.status 200 then
      (Except.ok (i + 1), 0)
    else if i = max_retries - 1 then
      (Except.error "vLLM server failed to start", 1)
    else
      let r := health_loop results rest
      (r.1, r.2 + 1)

/-- The health-polling phase of `AyaLLM.start_server`: iterate the
readiness check over `range(max_retries)`. `results i` is the outcome
of the i-th `GET /health`. -/
def start_server_health_wait (results : Nat → HealthResult) :
    Except String Nat × Nat :=
  health_loop results (List.range max_retries)

/-! ## `server/bot/services/modal_aya_service.py` -/

/-- Externally visible effects of `ModalAyaLLMService.stop`, `.cancel`
and `._cleanup`: the delegations to the parent `OpenAILLMService`
handlers and the call to `self.modal_tunnel_manager.close()`. -/
inductive TeardownEvent where
  | superStop
  | superCancel
  | tunnelClose
deriving DecidableEq, Repr

/-- The slice of `ModalAyaLLMService` state the teardown path reads:
whether a `modal_tunnel_manager` was supplied at construction. -/
structure AyaServiceState where
  has_tunnel_manager : Bool
deriving DecidableEq, Repr

/-- `ModalAyaLLMService._cleanup`: calls `modal_tunnel_manager.close()`
when a manager was supplied, otherwise does nothing. -/
def aya_cleanup (s : AyaServiceState) : List TeardownEvent :=
  if s.has_tunnel_manager then [TeardownEvent.tunnelClose] else []

/-- `ModalAyaLLMService.stop`: `await super().stop(frame)` then
`self._cleanup()`. -/
def aya_stop (s : AyaServiceState) : List TeardownEvent :=
  TeardownEvent.superStop :: aya_cleanup s

/-- `ModalAyaLLMService.cancel`: `await super().cancel(frame)` then
`self._cleanup()`. -/
def aya_cancel (s : AyaServiceState) : List TeardownEvent :=
  TeardownEvent.superCancel :: aya_cleanup s

/-- The fixed fallback credential of `ModalAyaLLMService.__init__`. -/
def default_api_key : String := "super-secret-key"

/-- Python's `str.endswith`, on the character lists of the strings. -/
def pyEndsWith (s suffix : String) : Bool :=
  suffix.data.isSuffixOf s.data

/-- What `ModalAyaLLMService.__init__` leaves behind on success: the
instance attributes it sets and the `base_url` / `api_key` it forwards
to `OpenAILLMService.__init__`. -/
structure AyaInitResult where
  base_url_attr : String
  parent_base_url : String
  api_key : String
  has_tunnel_manager : Bool
deriving DecidableEq, Repr

/-- `ModalAyaLLMService.__init__`. `api_key` falsy (absent or empty) is
replaced by the static token; `base_url` falsy (absent or empty) raises
`"base_url must be provided for Aya-101"`; a `base_url` lacking the
`"/v1"` suffix is forwarded to the parent with `"/v1"` appended while
`self.base_url` keeps the original value. -/
def ModalAyaLLMService_init (modal_tunnel_manager : Bool)
    (base_url : Option String) (api_key : Option String) :
    Except String AyaInitResult :=
  let key := match api_key with
    | some k => if k = "" then default_api_key else k
    | none => default_api_key
  match base_url with
  | none => Except.error "base_url must be provided for Aya-101"
  | some u =>
    if u = "" then Except.error "base_url must be provided for Aya-101"
    else
      let parent := if pyEndsWith u "/v1" then u else u ++ "/v1"
      Except.ok { base_url_attr := u, parent_base_url := parent,
                  api_key := key, has_tunnel_manager := modal_tunnel_manager }

/-! ## Theorems -/

/-- Claim C1: `run_tts` on a connected service yields `TTSStartedFrame`
exactly when `_running` is false and then marks the service running;
`push_frame` of `TTSStoppedFrame` or `InterruptionFrame` clears the
flag, so the next `run_tts` yields a fresh `TTSStartedFrame`, while two
consecutive `run_tts` calls with no intervening stop or interruption
yield `TTSStartedFrame` only on the first. -/
theorem run_tts_started_iff_not_running (s : TTSServiceState)
    (p1 p2 p3 : String) (ok1 ok2 ok3 : Bool) (h : s.connected = true) :
    (Frame.ttsStarted ∈ (run_tts s p1 ok1).frames ↔ s.running = false) ∧
    (run_tts s p1 ok1).state.running = true ∧
    (push_frame (run_tts s p1 ok1).state Frame.ttsStopped).1.running = false ∧
    (push_frame (run_tts s p1 ok1).state Frame.interruption).1.running = false ∧
    Frame.ttsStarted ∈
      (run_tts (push_frame (run_tts s p1 ok1).state Frame.ttsStopped).1 p2 ok2).frames ∧
    Frame.ttsStarted ∉ (run_tts (run_tts s p1 ok1).state p3 ok3).frames := by
  unfold run_tts push_frame
  cases hr : s.running <;> cases ok1 <;> cases ok2 <;> cases ok3 <;>
    simp [h, hr]

/-- Witness for C1 at a concrete connected, idle service. -/
theorem run_tts_started_iff_not_running_witness :
    (Frame.ttsStarted ∈
        (run_tts (ModalSwahiliTTSService_init 22 250 true) "Habari" true).frames ↔
      (ModalSwahiliTTSService_init 22 250 true).running = false) ∧
    (run_tts (ModalSwahiliTTSService_init 22 250 true) "Habari" true).state.running = true ∧
    (push_frame (run_tts (ModalSwahiliTTSService_init 22 250 true) "Habari" true).state
      Frame.ttsStopped).1.running = false ∧
    (push_frame (run_tts (ModalSwahiliTTSService_init 22 250 true) "Habari" true).state
      Frame.interruption).1.running = false ∧
    Frame.ttsStarted ∈
      (run_tts (push_frame (run_tts (ModalSwahiliTTSService_init 22 250 true) "Habari" true).state
        Frame.ttsStopped).1 "Karibu" true).frames ∧
    Frame.ttsStarted ∉
      (run_tts (run_tts (ModalSwahiliTTSService_init 22 250 true) "Habari" true).state
        "Karibu" true).frames :=
  run_tts_started_iff_not_running (ModalSwahiliTTSService_init 22 250 true)
    "Habari" "Karibu" "Karibu" true true true rfl

/-- Claim C7: on a connected service, `run_tts` performs exactly one
websocket send, a JSON object with exactly the keys `type`, `text`,
`speaker_id`, `max_tokens`, where `type` is `"prompt"`, `text` is the
stripped prompt and the two integers are those fixed at construction;
the bot's `run_bot` fixes them to 22 and 250. -/
theorem run_tts_sends_single_prompt (s : TTSServiceState) (p : String)
    (ok : Bool) (h : s.connected = true) :
    (run_tts s p ok).sent = [tts_msg p s.speaker_id s.max_tokens] ∧
    (tts_msg p s.speaker_id s.max_tokens).map Prod.fst =
      ["type", "text", "speaker_id", "max_tokens"] ∧
    tts_msg p s.speaker_id s.max_tokens =
      [("type", JVal.str "prompt"), ("text", JVal.str p.trim),
       ("speaker_id", JVal.num s.speaker_id),
       ("max_tokens", JVal.num s.max_tokens)] ∧
    (run_bot_tts_service).speaker_id = 22 ∧
    (run_bot_tts_service).max_tokens = 250 := by
  refine ⟨?_, rfl, rfl, rfl, rfl⟩
  unfold run_tts
  cases ok <;> simp [h]

/-- Witness for C7 at a concrete connected service and prompt. -/
theorem run_tts_sends_single_prompt_witness :
    (run_tts (ModalSwahiliTTSService_init 22 250 true) " Habari yako " true).sent =
      [tts_msg " Habari yako "
        (ModalSwahiliTTSService_init 22 250 true).speaker_id
        (ModalSwahiliTTSService_init 22 250 true).max_tokens] ∧
    (tts_msg " Habari yako " (ModalSwahiliTTSService_init 22 250 true).speaker_id
      (ModalSwahiliTTSService_init 22 250 true).max_tokens).map Prod.fst =
      ["type", "text", "speaker_id", "max_tokens"] ∧
    tts_msg " Habari yako " (ModalSwahiliTTSService_init 22 250 true).speaker_id
        (ModalSwahiliTTSService_init 22 250 true).max_tokens =
      [("type", JVal.str "prompt"),
       ("text", JVal.str (" Habari yako " : String).trim),
       ("speaker_id", JVal.num (ModalSwahiliTTSService_init 22 250 true).speaker_id),
       ("max_tokens", JVal.num (ModalSwahiliTTSService_init 22 250 true).max_tokens)] ∧
    (run_bot_tts_service).speaker_id = 22 ∧
    (run_bot_tts_service).max_tokens = 250 :=
  run_tts_sends_single_prompt (ModalSwahiliTTSService_init 22 250 true)
    " Habari yako " true rfl

/-- Claim C8: `run_tts` without a websocket yields a single fatal
`ErrorFrame`, returns at once, sends nothing and leaves the state (in
particular the `_running` flag) unchanged. -/
theorem run_tts_not_connected (s : TTSServiceState) (p : String) (ok : Bool)
    (h : s.connected = false) :
    run_tts s p ok =
      { frames := [Frame.errorFrame "Not connected to Swahili CSM TTS." true],
        sent := [], state := s } := by
  unfold run_tts
  simp [h]

/-- Witness for C8 at a concrete disconnected service. -/
theorem run_tts_not_connected_witness :
    run_tts (ModalSwahiliTTSService_init 22 250 false) "Habari" true =
      { frames := [Frame.errorFrame "Not connected to Swahili CSM TTS." true],
        sent := [], state := ModalSwahiliTTSService_init 22 250 false } :=
  run_tts_not_connected (ModalSwahiliTTSService_init 22 250 false) "Habari" true rfl

/-- A text frame among the sends of `synthesize_websocket` (the only
text frames it ever sends are JSON error payloads). -/
def isTextFrame : WSOut → Bool
  | WSOut.text _ => true
  | WSOut.binary _ => false

/-- Claim C2, counterexample: in the TTS worker's
`synthesize_websocket` the `try/except` wraps the whole `async for`, so
a malformed first message sends a JSON error frame and terminates the
loop — the valid prompt that follows it is never processed and its
audio is never sent. -/
theorem synthesize_websocket_stops_on_bad_message :
    synthesize_websocket
        [TTSInMsg.malformed "boom",
         TTSInMsg.prompt "Habari" 22 250 (Except.ok [1])] =
      [WSOut.text (jsonErrorText "boom")] ∧
    WSOut.binary (pcm16leBytes [1]) ∉
      synthesize_websocket
        [TTSInMsg.malformed "boom",
         TTSInMsg.prompt "Habari" 22 250 (Except.ok [1])] := by
  constructor
  · rfl
  · decide

/-- Claim C2 as amended: in the STT server's `recv_loop` and the TTS
client's `_receive_messages` a per-message exception is caught, logged
and the loop continues with the next message; in the TTS worker's
`synthesize_websocket` the handler sits outside the loop, so the first
per-message exception sends one JSON error frame and ends the loop. -/
theorem per_message_error_handling (e d f : String) (ts : Nat)
    (rest1 rest4 : List STTMsg) (rest2 : List TTSClientMsg)
    (rest3 : List TTSInMsg) :
    recv_loop (STTMsg.malformed e :: rest1) = recv_loop rest1 ∧
    recv_loop (STTMsg.audio (Except.error f) :: rest4) = recv_loop rest4 ∧
    receive_messages ts (TTSClientMsg.failing d :: rest2) =
      Frame.errorFrame ("Error decoding audio: " ++ d) false
        :: receive_messages ts rest2 ∧
    synthesize_websocket (TTSInMsg.malformed e :: rest3) =
      [WSOut.text (jsonErrorText e)] :=
  ⟨rfl, rfl, rfl, rfl⟩

/-- An event of `run_tunnel_client` that writes the discovery key
`"url"`. -/
def isUrlPut : DictEvent → Bool
  | DictEvent.put "url" _ => true
  | _ => false

theorem filter_isUrlPut_replicate_sleep (n : Nat) :
    (List.replicate n DictEvent.sleep).filter isUrlPut = [] := by
  induction n with
  | zero => rfl
  | succ k ih => simp [List.replicate_succ, isUrlPut, ih]

/-- Claim C3: each worker's `run_tunnel_client` writes the discovery
key `"url"` exactly once, as its very first store event — before any
keep-alive iteration — and never again, however long the keep-alive
loop runs. -/
theorem run_tunnel_client_writes_url_once (u v : String) (n m : Nat) :
    (SwahiliTranscriber_run_tunnel_client u n).filter isUrlPut =
      [DictEvent.put "url" u] ∧
    (SwahiliTranscriber_run_tunnel_client u n).head? =
      some (DictEvent.put "url" u) ∧
    (AyaLLM_run_tunnel_client v m).filter isUrlPut =
      [DictEvent.put "url" v] ∧
    (AyaLLM_run_tunnel_client v m).head? = some (DictEvent.put "url" v) := by
  refine ⟨?_, rfl, ?_, rfl⟩ <;>
    simp [SwahiliTranscriber_run_tunnel_client, AyaLLM_run_tunnel_client,
      isUrlPut, filter_isUrlPut_replicate_sleep]

/-- Claim C4, counterexample: for a successfully handled prompt the TTS
worker sends exactly one raw binary PCM frame and nothing after it — in
particular no stream-end control signal (no text frame at all) ever
follows the audio. -/
theorem synthesize_websocket_no_stream_end :
    synthesize_websocket [TTSInMsg.prompt "Habari" 22 250 (Except.ok [100, -3])] =
      [WSOut.binary [100, 0, 253, 255]] ∧
    (synthesize_websocket
        [TTSInMsg.prompt "Habari" 22 250 (Except.ok [100, -3])]).filter
      isTextFrame = [] := by
  constructor
  · rfl
  · rfl

/-- Messages of `synthesize_websocket` whose processing completes
without raising: prompts whose generation succeeds, and non-prompt JSON
messages. -/
def msgSucceeds : TTSInMsg → Bool
  | TTSInMsg.prompt _ _ _ (Except.ok _) => true
  | TTSInMsg.otherType => true
  | TTSInMsg.prompt _ _ _ (Except.error _) => false
  | TTSInMsg.malformed _ => false

/-- Claim C4 as amended: each successfully handled prompt is answered
with the generated audio as a single raw binary little-endian 16-bit
PCM frame (no base64, no header), and on a success-only session the
worker sends no JSON error frame and no text frame at all — no
stream-end control signal is ever sent; the end of an utterance is not
marked by the worker. -/
theorem synthesize_websocket_success_path (text : String) (sid mt : Nat)
    (samples : List Int) (msgs : List TTSInMsg)
    (h : ∀ m ∈ msgs, msgSucceeds m = true) :
    process_tts_msg (TTSInMsg.prompt text sid mt (Except.ok samples)) =
      Except.ok [WSOut.binary (pcm16leBytes samples)] ∧
    (synthesize_websocket msgs).filter isTextFrame = [] := by
  refine ⟨rfl, ?_⟩
  induction msgs with
  | nil => rfl
  | cons m rest ih =>
    have hm : msgSucceeds m = true := h m (List.mem_cons_self m rest)
    have hrest : ∀ x ∈ rest, msgSucceeds x = true :=
      fun x hx => h x (List.mem_cons_of_mem m hx)
    match m, hm with
    | TTSInMsg.prompt t s k (Except.ok xs), _ =>
      simpa [synthesize_websocket, process_tts_msg, isTextFrame]
        using ih hrest
    | TTSInMsg.otherType, _ =>
      simpa [synthesize_websocket, process_tts_msg, isTextFrame]
        using ih hrest

/-- Witness for the amended C4 on a concrete success-only session. -/
theorem synthesize_websocket_success_path_witness :
    process_tts_msg (TTSInMsg.prompt "Habari" 22 250 (Except.ok [100, -3])) =
      Except.ok [WSOut.binary (pcm16leBytes [100, -3])] ∧
    (synthesize_websocket
        [TTSInMsg.prompt "Habari" 22 250 (Except.ok [100, -3]),
         TTSInMsg.otherType]).filter isTextFrame = [] :=
  synthesize_websocket_success_path "Habari" 22 250 [100, -3]
    [TTSInMsg.prompt "Habari" 22 250 (Except.ok [100, -3]),
     TTSInMsg.otherType]
    (by decide)

/-- Claim C5: for an inbound audio message the STT server replies if
and only if the transcription text is non-empty — a non-empty first
transcription is sent back as a single text frame equal to it, while an
empty or absent transcription produces no outbound message (and no
error frame: the reply list is exactly as below). -/
theorem stt_audio_reply_iff_nonempty (transcriptions : List String)
    (rest : List STTMsg) :
    process_stt_msg (STTMsg.audio (Except.ok transcriptions)) =
      Except.ok
        (if transcriptions.headD "" = "" then []
         else [transcriptions.headD ""]) ∧
    recv_loop (STTMsg.audio (Except.ok transcriptions) :: rest) =
      (if transcriptions.headD "" = "" then []
       else [transcriptions.headD ""]) ++ recv_loop rest ∧
    ((if transcriptions.headD "" = "" then ([] : List String)
      else [transcriptions.headD ""]) ≠ [] ↔
      transcriptions.headD "" ≠ "") := by
  refine ⟨rfl, ?_, ?_⟩
  · simp only [recv_loop, process_stt_msg]
  · by_cases hd : transcriptions.headD "" = "" <;> simp [hd]

theorem health_loop_all_fail (results : Nat → HealthResult) :
    ∀ b a, a + b = max_retries →
      (∀ j, a ≤ j → j < max_retries → results j ≠ HealthResult.status 200) →
      health_loop results (List.range' a b) =
        (Except.error "vLLM server failed to start", b) := by
  intro b
  induction b with
  | zero => intro a _ _; rfl
  | succ b ih =>
    intro a hsum hfail
    rw [List.range'_succ]
    have ha : results a ≠ HealthResult.status 200 :=
      hfail a (Nat.le_refl a) (by omega)
    by_cases hlast : a = max_retries - 1
    · have hb : b = 0 := by simp [max_retries] at hsum hlast ⊢; omega
      subst hb
      simp [health_loop, ha, hlast]
      exact hlast ▸ ha
    · have := ih (a + 1) (by omega)
        (fun j hj hj2 => hfail j (by omega) hj2)
      simp [health_loop, ha, hlast, this]

theorem health_loop_first_success (results : Nat → HealthResult) :
    ∀ b a k, a + b = max_retries → a ≤ k → k < max_retries →
      results k = HealthResult.status 200 →
      (∀ j, a ≤ j → j < k → results j ≠ HealthResult.status 200) →
      health_loop results (List.range' a b) = (Except.ok (k + 1), k - a) := by
  intro b
  induction b with
  | zero => intro a k hsum hak hk _ _; omega
  | succ b ih =>
    intro a k hsum hak hk hok hfail
    rw [List.range'_succ]
    by_cases hek : a = k
    · subst hek
      simp [health_loop, hok]
    · have ha : results a ≠ HealthResult.status 200 :=
        hfail a (Nat.le_refl a) (by omega)
      have hlast : a ≠ max_retries - 1 := by
        simp [max_retries] at hk ⊢; omega
      have := ih (a + 1) k (by omega) (by omega) hk hok
        (fun j hj hj2 => hfail j (by omega) hj2)
      simp [health_loop, ha, hlast, this]
      omega

/-- Claim C6: the readiness wait of `AyaLLM.start_server` makes at most
`max_retries = 60` health checks at a fixed one-second interval
(`time.sleep(1)` after each failed attempt, counted in the second
component), stops at the first 200 response — after `k` failed attempts
it succeeds on attempt `k + 1` having slept `k` seconds — and raises
`"vLLM server failed to start"` after exactly 60 failed attempts and 60
seconds of sleeping when no attempt succeeds. -/
theorem start_server_health_polling (results : Nat → HealthResult) :
    ((∀ j, j < max_retries → results j ≠ HealthResult.status 200) →
      start_server_health_wait results =
        (Except.error "vLLM server failed to start", max_retries)) ∧
    (∀ k, k < max_retries → results k = HealthResult.status 200 →
      (∀ j, j < k → results j ≠ HealthResult.status 200) →
      start_server_health_wait results = (Except.ok (k + 1), k)) := by
  constructor
  · intro hfail
    unfold start_server_health_wait
    rw [List.range_eq_range']
    exact health_loop_all_fail results max_retries 0 (by omega)
      (fun j _ hj => hfail j hj)
  · intro k hk hok hfail
    unfold start_server_health_wait
    rw [List.range_eq_range']
    simpa using health_loop_first_success results max_retries 0 k
      (by omega) (Nat.zero_le k) hk hok (fun j _ hj => hfail j hj)

/-- Witness for C6: with the first three health checks raising and the
fourth returning 200, the wait succeeds on attempt 4 after 3 seconds. -/
theorem start_server_health_polling_witness :
    (fun i => if i = 3 then HealthResult.status 200 else HealthResult.exc) 3 =
      HealthResult.status 200 ∧
    start_server_health_wait
        (fun i => if i = 3 then HealthResult.status 200 else HealthResult.exc) =
      (Except.ok 4, 3) :=
  ⟨rfl,
    (start_server_health_polling
        (fun i => if i = 3 then HealthResult.status 200 else HealthResult.exc)).2
      3 (by decide) rfl
      (fun j hj => by interval_cases j <;> decide)⟩

/-- Claim C9: `stop` and `cancel` run the same teardown — first the
parent handler, then `_cleanup` — and `_cleanup` closes the tunnel
manager exactly when one was supplied, doing nothing (and raising
nothing, being total) otherwise. -/
theorem aya_stop_cancel_teardown (s : AyaServiceState) :
    aya_stop s = TeardownEvent.superStop :: aya_cleanup s ∧
    aya_cancel s = TeardownEvent.superCancel :: aya_cleanup s ∧
    (aya_stop s).tail = (aya_cancel s).tail ∧
    aya_cleanup { has_tunnel_manager := false } = [] ∧
    (aya_cleanup s = [] ↔ s.has_tunnel_manager = false) := by
  cases s with
  | mk b => cases b <;> simp [aya_stop, aya_cancel, aya_cleanup]

/-- Claim C10: `ModalAyaLLMService.__init__` raises whenever `base_url`
is absent, whatever the tunnel manager; a `base_url` without the
`"/v1"` suffix reaches the parent with `"/v1"` appended while the
instance attribute keeps the original; an absent `api_key` becomes the
static token. -/
theorem aya_init_behavior (mgr : Bool) (u : String) (k : Option String)
    (hu : u ≠ "") (hv : pyEndsWith u "/v1" = false) :
    ModalAyaLLMService_init mgr none k =
      Except.error "base_url must be provided for Aya-101" ∧
    (∀ key : String, key ≠ "" →
      ModalAyaLLMService_init mgr (some u) (some key) =
        Except.ok { base_url_attr := u, parent_base_url := u ++ "/v1",
                    api_key := key, has_tunnel_manager := mgr }) ∧
    ModalAyaLLMService_init mgr (some u) none =
      Except.ok { base_url_attr := u, parent_base_url := u ++ "/v1",
                  api_key := default_api_key, has_tunnel_manager := mgr } := by
  refine ⟨rfl, ?_, ?_⟩
  · intro key hkey
    simp [ModalAyaLLMService_init, hu, hv, hkey]
  · simp [ModalAyaLLMService_init, hu, hv]

/-- Witness for C10 at a concrete tunnel-managed construction. -/
theorem aya_init_behavior_witness :
    ModalAyaLLMService_init true none (some "abc") =
      Except.error "base_url must be provided for Aya-101" ∧
    (∀ key : String, key ≠ "" →
      ModalAyaLLMService_init true (some "https://aya.modal.run") (some key) =
        Except.ok { base_url_attr := "https://aya.modal.run",
                    parent_base_url := "https://aya.modal.run" ++ "/v1",
                    api_key := key, has_tunnel_manager := true }) ∧
    ModalAyaLLMService_init true (some "https://aya.modal.run") none =
      Except.ok { base_url_attr := "https://aya.modal.run",
                  parent_base_url := "https://aya.modal.run" ++ "/v1",
                  api_key := default_api_key, has_tunnel_manager := true } :=
  aya_init_behavior true "https://aya.modal.run" (some "abc")
    (by decide) (by decide)

end SwahiliBot
